import Mathlib

/-!
# phonecheck: the C interface of the numbering-plan engine

`src/phonenumber_wrapper.cpp` exposes the engine (`PhoneNumberUtil`) through a
flat C interface.  This development embeds the functions of that file that the
specification's properties are about and states those properties over the
embedding.

* Part 1 embeds the wrapper itself.  The engine it calls lives in a library
  that is not part of the source tree, so the wrapper is embedded over an
  arbitrary engine (`PhoneNumberUtil`, a record of the operations called).
* Part 2 models the parser, the validator, the classifier and the formatter
  of the engine from sections 3 and 4 of the specification; the matcher of
  section 4.5 is left a parameter.
-/

namespace PhoneCheck

/-! ## Part 1: the wrapper -/

/-- Contents of a `std::string`, or of a `char` buffer: one byte value per element. -/
abbrev Bytes := List Nat

/-- Modelled from the spec: the structured number of section 3.  The class
`PhoneNumber` is declared in `phonenumbers/phonenumber.pb.h`, which the wrapper
includes but which is not part of the source tree.  `country_code` is the
field the spec calls `country_calling_code` (the wrapper reads it through the
accessor `country_code()`), a 32-bit signed integer; `national_number` is an
unsigned 64-bit integer.  An absent optional string is `none`. -/
structure PhoneNumber where
  country_code : Int
  national_number : Nat
  italian_leading_zero : Bool
  number_of_leading_zeros : Nat
  extension : Option Bytes
  preferred_domestic_carrier_code : Option Bytes
  raw_input : Option Bytes
deriving DecidableEq, Repr

/-- The values a `PhoneNumber` object can hold: `country_code` fits a 32-bit
signed integer and `national_number` an unsigned 64-bit integer. -/
def PhoneNumber.InRange (n : PhoneNumber) : Prop :=
  -(2 ^ 31) ≤ n.country_code ∧ n.country_code < 2 ^ 31 ∧ n.national_number < 2 ^ 64

instance (n : PhoneNumber) : Decidable n.InRange := by
  unfold PhoneNumber.InRange; infer_instance

/-- Modelled from the spec: the parse outcomes of section 7, with the outcome
`NO_PARSING_ERROR` that the wrapper compares against (line 33).  The
enumeration is declared in `phonenumbers/phonenumberutil.h`. -/
inductive ErrorType where
  | NO_PARSING_ERROR
  | NOT_A_NUMBER
  | INVALID_COUNTRY_CODE
  | TOO_SHORT_NSN
  | TOO_LONG_NSN
  | TOO_SHORT_AFTER_IDD
deriving DecidableEq, Repr

/-- Modelled from the spec: the enumeration `ValidationResult` of section 3,
declared in `phonenumbers/phonenumberutil.h`. -/
inductive ValidationResult where
  | IS_POSSIBLE
  | INVALID_COUNTRY_CODE
  | TOO_SHORT
  | TOO_LONG
  | IS_POSSIBLE_LOCAL_ONLY
  | INVALID_LENGTH
deriving DecidableEq, Repr

/-- Modelled from the spec: the enumeration `NumberType` of section 3,
declared in `phonenumbers/phonenumberutil.h`. -/
inductive NumberType where
  | FIXED_LINE
  | MOBILE
  | FIXED_LINE_OR_MOBILE
  | TOLL_FREE
  | PREMIUM_RATE
  | SHARED_COST
  | VOIP
  | PERSONAL_NUMBER
  | PAGER
  | UAN
  | VOICEMAIL
  | UNKNOWN
deriving DecidableEq, Repr

/-- Modelled from the spec: the enumeration `MatchLevel` of section 3,
declared in `phonenumbers/phonenumberutil.h`. -/
inductive MatchLevel where
  | NO_MATCH
  | SHORT_NSN_MATCH
  | NSN_MATCH
  | EXACT_MATCH
deriving DecidableEq, Repr

/-- Modelled from the spec: the formatting styles of section 4.4, declared in
`phonenumbers/phonenumberutil.h`. -/
inductive NumberFormat where
  | NATIONAL
  | INTERNATIONAL
  | E164
  | RFC3966
deriving DecidableEq, Repr

/-- The integer value of every enumerator, a parameter of the embedding: the
header that fixes these values (`phonenumbers/phonenumberutil.h`) is not part
of the source tree and the spec does not give them.  `static_cast<int>(e)`
is the value this record gives to `e`. -/
structure EnumCodes where
  error_type : ErrorType → Int
  validation_result : ValidationResult → Int
  number_type : NumberType → Int
  match_level : MatchLevel → Int
  number_format : NumberFormat → Int

/-- The engine behind `PhoneNumberUtil* util`, a parameter of the embedding:
the library is not part of the source tree.  There is one field per method
the wrapper calls.  Following sections 3 and 5 of the spec, every operation
is a function of its arguments alone, and the operations on a number take it
read-only (`consumed (never mutated)`).  `Parse` returns its result code
together with the contents of the `PhoneNumber` object it was given to fill;
`Format` receives the style as the integer the wrapper casts (line 89);
`Format` and `GetRegionCodeForNumber` return the string they store through
their output pointer. -/
structure PhoneNumberUtil where
  Parse : Bytes → Bytes → ErrorType × PhoneNumber
  IsValidNumber : PhoneNumber → Bool
  IsPossibleNumber : PhoneNumber → Bool
  IsPossibleNumberWithReason : PhoneNumber → ValidationResult
  GetNumberType : PhoneNumber → NumberType
  Format : PhoneNumber → Int → Bytes
  GetRegionCodeForNumber : PhoneNumber → Bytes
  IsNumberMatch : PhoneNumber → PhoneNumber → MatchLevel

/-- The conversion `std::string(p)` of a `const char* p`: the bytes found at
`p` up to, and not including, the first zero byte. -/
def std_string (p : Bytes) : Bytes := p.takeWhile (fun b => b != 0)

/-- The array `s.c_str()`: the bytes of `s` followed by a zero byte. -/
def c_str (s : Bytes) : Bytes := s ++ [0]

/-- The block `malloc(size)`: `size` bytes of indeterminate content, `fresh i`
being the byte found at offset `i`.  Allocation is taken to succeed. -/
def malloc (fresh : Nat → Nat) (size : Nat) : Bytes := (List.range size).map fresh

/-- The call `std::strcpy(dst, src)`: the bytes of `src` up to and including
its first zero byte overwrite the start of `dst`; the rest of `dst` is left
as it was. -/
def strcpy (dst src : Bytes) : Bytes :=
  let copied := src.takeWhile (fun b => b != 0) ++ [0]
  copied ++ dst.drop copied.length

/-- A value as a C `int` (32-bit two's complement). -/
def to_int (x : Int) : Int := (x + 2 ^ 31) % 2 ^ 32 - 2 ^ 31

/-- A value as a `uint64_t`. -/
def to_uint64 (x : Nat) : Nat := x % 2 ^ 64

/-- What `phoneutil_parse` hands back: its return value and the contents of
its two output parameters (`none` is the null pointer). -/
structure ParseOut where
  ret : Bool
  phone_number_out : Option PhoneNumber
  error_type_out : Int
deriving DecidableEq, Repr

/-- The function `phoneutil_parse` (lines 19-45).  The local `error` is
declared on line 27 and never assigned, so the value read on line 42 is
indeterminate: it is the parameter `error` here. -/
def phoneutil_parse (util : PhoneNumberUtil) (error : Int)
    (number_to_parse default_region : Bytes) : ParseOut :=
  let parsed := util.Parse (std_string number_to_parse) (std_string default_region)
  let phone_number := parsed.2
  let success := parsed.1 == ErrorType.NO_PARSING_ERROR
  if success then
    { ret := true, phone_number_out := some phone_number, error_type_out := 0 }
  else
    { ret := false, phone_number_out := none, error_type_out := to_int error }

/-- Outcome of a wrapper that is given one `PhoneNumber* number`: what it
returns and the contents of `*number` when it returns. -/
structure Call (α : Type) where
  result : α
  number : PhoneNumber

/-- Outcome of a wrapper that is given two numbers. -/
structure Call2 (α : Type) where
  result : α
  number1 : PhoneNumber
  number2 : PhoneNumber

/-- The pair of outputs of the string-returning wrappers: the contents of the
block stored in `*formatted_out` (or `*region_out`) and the length stored in
`*formatted_len_out` (or `*region_len_out`). -/
structure StringOut where
  buffer : Bytes
  len : Nat
deriving DecidableEq, Repr

/-- The function `phoneutil_is_valid_number` (lines 48-53). -/
def phoneutil_is_valid_number (util : PhoneNumberUtil) (number : PhoneNumber) : Call Bool :=
  { result := util.IsValidNumber number, number := number }

/-- The function `phoneutil_is_possible_number` (lines 56-61). -/
def phoneutil_is_possible_number (util : PhoneNumberUtil) (number : PhoneNumber) : Call Bool :=
  { result := util.IsPossibleNumber number, number := number }

/-- The function `phoneutil_is_possible_number_with_reason` (lines 64-69). -/
def phoneutil_is_possible_number_with_reason (codes : EnumCodes) (util : PhoneNumberUtil)
    (number : PhoneNumber) : Call Int :=
  { result := codes.validation_result (util.IsPossibleNumberWithReason number),
    number := number }

/-- The function `phoneutil_get_number_type` (lines 72-77). -/
def phoneutil_get_number_type (codes : EnumCodes) (util : PhoneNumberUtil)
    (number : PhoneNumber) : Call Int :=
  { result := codes.number_type (util.GetNumberType number), number := number }

/-- The function `phoneutil_format_number` (lines 80-96).  `fresh` is the
content of the block that `malloc` returns. -/
def phoneutil_format_number (util : PhoneNumberUtil) (fresh : Nat → Nat)
    (number : PhoneNumber) (format : Int) : Call StringOut :=
  let formatted := util.Format number format
  let formatted_len_out := formatted.length
  let formatted_out := malloc fresh (formatted.length + 1)
  { result := { buffer := strcpy formatted_out (c_str formatted), len := formatted_len_out },
    number := number }

/-- The function `phoneutil_get_region_code` (lines 99-111). -/
def phoneutil_get_region_code (util : PhoneNumberUtil) (fresh : Nat → Nat)
    (number : PhoneNumber) : Call StringOut :=
  let region := util.GetRegionCodeForNumber number
  let region_len_out := region.length
  let region_out := malloc fresh (region.length + 1)
  { result := { buffer := strcpy region_out (c_str region), len := region_len_out },
    number := number }

/-- The function `phoneutil_get_country_code` (lines 114-116). -/
def phoneutil_get_country_code (number : PhoneNumber) : Call Int :=
  { result := to_int number.country_code, number := number }

/-- The function `phoneutil_get_national_number` (lines 119-121). -/
def phoneutil_get_national_number (number : PhoneNumber) : Call Nat :=
  { result := to_uint64 number.national_number, number := number }

/-- The function `phoneutil_is_number_match` (lines 124-130). -/
def phoneutil_is_number_match (codes : EnumCodes) (util : PhoneNumberUtil)
    (number1 number2 : PhoneNumber) : Call2 Int :=
  { result := codes.match_level (util.IsNumberMatch number1 number2),
    number1 := number1, number2 := number2 }

/-! ## Part 2: the engine, from the specification -/

/-- A string of decimal digits, most significant first: one digit value per element. -/
abbrev Digits := List Nat

/-- The byte values of the characters of an ASCII string. -/
def ascii (s : String) : Bytes := s.toList.map Char.toNat

/-- Worker of `decimal`: prepends the digits of `n` to `acc`. -/
def decimal_aux : Nat → Nat → Digits → Digits
  | 0, _, acc => acc
  | fuel + 1, n, acc =>
    if n < 10 then n :: acc else decimal_aux fuel (n / 10) (n % 10 :: acc)

/-- The decimal digits of `n`, without leading zeros (`0` is the one digit `0`). -/
def decimal (n : Nat) : Digits := decimal_aux (n + 1) n []

/-- The number a digit string denotes. -/
def digits_value (ds : Digits) : Nat := ds.foldl (fun acc d => 10 * acc + d) 0

/-- The ASCII characters `'0'..'9'` of a digit string. -/
def digit_bytes (ds : Digits) : Bytes := ds.map (fun d => d + 48)

/-- Modelled from the spec: the keypad digit of a letter (section 4.1,
`A–C→2 … W–Z→9`); `none` for a byte that is not a letter. -/
def keypad_digit (b : Nat) : Option Nat :=
  let u := if 97 ≤ b ∧ b ≤ 122 then b - 32 else b
  if 65 ≤ u ∧ u ≤ 67 then some 2
  else if 68 ≤ u ∧ u ≤ 70 then some 3
  else if 71 ≤ u ∧ u ≤ 73 then some 4
  else if 74 ≤ u ∧ u ≤ 76 then some 5
  else if 77 ≤ u ∧ u ≤ 79 then some 6
  else if 80 ≤ u ∧ u ≤ 83 then some 7
  else if 84 ≤ u ∧ u ≤ 86 then some 8
  else if 87 ≤ u ∧ u ≤ 90 then some 9
  else none

/-- Modelled from the spec: what the Normalizer of section 4.1 keeps of one
character: a digit is kept, a letter becomes its keypad digit, anything else
is discarded. -/
def digit_of_byte (b : Nat) : Option Nat :=
  if 48 ≤ b ∧ b ≤ 57 then some (b - 48) else keypad_digit b

/-- Modelled from the spec: `normalize(raw) -> digits` of section 4.1. -/
def normalize (raw : Bytes) : Digits := raw.filterMap digit_of_byte

/-- Modelled from the spec: the extension markers that section 4.1 names. -/
def extension_markers : List Bytes := [ascii ";ext=", ascii "ext.", ascii "x"]

/-- Modelled from the spec: the extraction step of section 4.1.  The input is
cut at the first place where a marker stands; the digits after the marker are
the extension, returned apart from the main part. -/
def split_extension : Bytes → Bytes × Option Bytes
  | [] => ([], none)
  | b :: rest =>
    match extension_markers.find? (fun m => m.isPrefixOf (b :: rest)) with
    | some m =>
      let ext := normalize ((b :: rest).drop m.length)
      ([], if ext.isEmpty then none else some (digit_bytes ext))
    | none => ((b :: (split_extension rest).1), (split_extension rest).2)

/-- Modelled from the spec: a number descriptor of section 3, `{national-number
pattern, set of valid lengths}`.  A pattern is an anchored regular expression
(section 9); it is taken as the predicate saying which digit strings it
matches in full. -/
structure NumberDesc where
  pattern : Digits → Bool
  lengths : List Nat

/-- Modelled from the spec: a digit string matches a descriptor when its
length is one of the valid lengths and the pattern matches it in full. -/
def NumberDesc.accepts (d : NumberDesc) (ds : Digits) : Bool :=
  d.lengths.contains ds.length && d.pattern ds

/-- Modelled from the spec: a format template of section 3.  The two format
templates are taken as the functions that render a national number the
pattern matches. -/
structure FormatTemplate where
  pattern : Digits → Bool
  national_format : Digits → Bytes
  international_format : Option (Digits → Bytes)
  leading_digits : List (Digits → Bool)

/-- Modelled from the spec: `RegionMetadata` of section 3.  The pattern
`national_prefix_for_parsing` is taken as the function that gives the length
of the national prefix it matches at the start of a digit string, and the
transform rule as the rewriting it performs.  `idd` is the international
dialing prefix of section 4.2 step 2 and `leading_digits` the pattern of step
4 that tells the regions of one calling code apart. -/
structure RegionMetadata where
  region_code : Bytes
  country_calling_code : Nat
  idd : Option Digits
  national_prefix : Option Digits
  national_prefix_for_parsing : Option (Digits → Option Nat)
  national_prefix_transform_rule : Option (Digits → Digits)
  general_descriptor : NumberDesc
  fixed_line : NumberDesc
  mobile : NumberDesc
  toll_free : NumberDesc
  premium_rate : NumberDesc
  shared_cost : NumberDesc
  voip : NumberDesc
  personal_number : NumberDesc
  pager : NumberDesc
  uan : NumberDesc
  voicemail : NumberDesc
  short_code : NumberDesc
  formats : List FormatTemplate
  leading_digits : Option (Digits → Bool)
  main_country_for_code : Bool

/-- Modelled from the spec: the per-number-type descriptors of a region with
their types, in the priority order of section 4.3. -/
def RegionMetadata.classified (r : RegionMetadata) : List (NumberType × NumberDesc) :=
  [(NumberType.FIXED_LINE, r.fixed_line), (NumberType.MOBILE, r.mobile),
   (NumberType.TOLL_FREE, r.toll_free), (NumberType.PREMIUM_RATE, r.premium_rate),
   (NumberType.SHARED_COST, r.shared_cost), (NumberType.VOIP, r.voip),
   (NumberType.PERSONAL_NUMBER, r.personal_number), (NumberType.PAGER, r.pager),
   (NumberType.UAN, r.uan), (NumberType.VOICEMAIL, r.voicemail)]

/-- Modelled from the spec: all per-number-type descriptors of a region
(section 3), the short-code descriptor included. -/
def RegionMetadata.type_descriptors (r : RegionMetadata) : List NumberDesc :=
  r.classified.map Prod.snd ++ [r.short_code]

/-- Modelled from the spec: `MetadataStore` of section 3, the regions in
declaration order, with the `maximum reasonable digit length` of section 4.2
step 1. -/
structure MetadataStore where
  regions : List RegionMetadata
  max_input_digits : Nat

/-- Modelled from the spec: lookup of a region by its code (section 3, `exact`). -/
def MetadataStore.region (md : MetadataStore) (code : Bytes) : Option RegionMetadata :=
  md.regions.find? (fun r => r.region_code == code)

/-- Modelled from the spec: whether a digit string is the decimal form of a
country calling code of the store. -/
def MetadataStore.has_calling_code (md : MetadataStore) (p : Digits) : Bool :=
  md.regions.any (fun r => decimal r.country_calling_code == p)

/-- Modelled from the spec: every length that a descriptor of some region
permits (section 4.2 step 7). -/
def MetadataStore.permitted_lengths (md : MetadataStore) : List Nat :=
  md.regions.flatMap (fun r =>
    r.general_descriptor.lengths ++ r.type_descriptors.flatMap (fun d => d.lengths))

/-- Modelled from the spec: section 4.2 step 5, removal of the national
prefix when the pattern `national_prefix_for_parsing` matches, any transform
rule being applied before the removal. -/
def national_prefix_stripped (r : RegionMetadata) (ds : Digits) : Digits :=
  match r.national_prefix_for_parsing with
  | none => ds
  | some pat =>
    match pat ds with
    | none => ds
    | some k =>
      match r.national_prefix_transform_rule with
      | none => ds.drop k
      | some rule => (rule ds).drop k

/-- Modelled from the spec: whether the leading-digit pattern of a region
matches the national-prefix-stripped digits (section 4.2 step 4). -/
def leading_digits_match (r : RegionMetadata) (ds : Digits) : Bool :=
  match r.leading_digits with
  | none => false
  | some p => p (national_prefix_stripped r ds)

/-- Modelled from the spec: section 4.2 step 4.  A calling code of one region
resolves to it; among several regions the first, in declaration order, whose
leading-digit pattern matches wins, then the designated main region (and,
where the metadata designates none, the first region declared). -/
def resolve_region (md : MetadataStore) (cc : Nat) (ds : Digits) : Option RegionMetadata :=
  let candidates := md.regions.filter (fun r => r.country_calling_code == cc)
  match candidates with
  | [] => none
  | [r] => some r
  | _ =>
    match candidates.find? (fun r => leading_digits_match r ds) with
    | some r => some r
    | none =>
      match candidates.find? (fun r => r.main_country_for_code) with
      | some r => some r
      | none => candidates.head?

/-- Modelled from the spec: section 4.2 step 3, the longest country calling
code of one to three digits that starts the digit string, with the digits
that follow it. -/
def match_country_code (md : MetadataStore) (ds : Digits) : Option (Nat × Digits) :=
  [3, 2, 1].findSome? (fun k =>
    if k ≤ ds.length && md.has_calling_code (ds.take k) then
      some (digits_value (ds.take k), ds.drop k)
    else none)

/-- Modelled from the spec: the number of leading zeros that are split off a
national significant number (section 4.2 step 6); the last digit always stays
in the number. -/
def leading_zeros : Digits → Nat
  | 0 :: d :: rest => leading_zeros (d :: rest) + 1
  | _ => 0

/-- Modelled from the spec: section 4.2 steps 4 to 7, from the country
calling code and the digits that follow it to the structured number. -/
def build_number (md : MetadataStore) (cc : Nat) (rest : Digits) (ext : Option Bytes) :
    Except ErrorType PhoneNumber :=
  match resolve_region md cc rest with
  | none => Except.error ErrorType.INVALID_COUNTRY_CODE
  | some r =>
    let nsn := national_prefix_stripped r rest
    if md.permitted_lengths.all (fun l => nsn.length < l) then
      Except.error ErrorType.TOO_SHORT_NSN
    else if md.permitted_lengths.all (fun l => l < nsn.length) then
      Except.error ErrorType.TOO_LONG_NSN
    else
      let zeros := leading_zeros nsn
      Except.ok
        { country_code := (cc : Int),
          national_number := digits_value (nsn.drop zeros) % 2 ^ 64,
          italian_leading_zero := decide (0 < zeros),
          number_of_leading_zeros := zeros,
          extension := ext,
          preferred_domestic_carrier_code := none,
          raw_input := none }

/-- Modelled from the spec: `parse(raw, default_region)` of section 4.2.  An
absent default region is the empty string, which is the code of no region;
43 is the character `+`. -/
def parse (md : MetadataStore) (raw default_region : Bytes) : Except ErrorType PhoneNumber :=
  let parts := split_extension raw
  let ds := normalize parts.1
  if ds.isEmpty || decide (md.max_input_digits < ds.length) then
    Except.error ErrorType.NOT_A_NUMBER
  else if parts.1.head? == some 43 then
    match match_country_code md ds with
    | none => Except.error ErrorType.INVALID_COUNTRY_CODE
    | some (cc, rest) => build_number md cc rest parts.2
  else
    match md.region default_region with
    | none => Except.error ErrorType.INVALID_COUNTRY_CODE
    | some r =>
      match r.idd with
      | some p =>
        if p.isPrefixOf ds then
          if (ds.drop p.length).isEmpty then Except.error ErrorType.TOO_SHORT_AFTER_IDD
          else
            match match_country_code md (ds.drop p.length) with
            | none => Except.error ErrorType.INVALID_COUNTRY_CODE
            | some (cc, rest) => build_number md cc rest parts.2
        else build_number md r.country_calling_code ds parts.2
      | none => build_number md r.country_calling_code ds parts.2

/-- Modelled from the spec: the number of leading zeros a structured number
tracks out of band (section 3). -/
def tracked_zeros (n : PhoneNumber) : Nat :=
  if n.italian_leading_zero then n.number_of_leading_zeros else 0

/-- Modelled from the spec: the national significant number of the glossary,
the tracked leading zeros followed by the digits of `national_number`. -/
def nsn_digits (n : PhoneNumber) : Digits :=
  List.replicate (tracked_zeros n) 0 ++ decimal n.national_number

/-- Modelled from the spec: the region that owns a number (section 6,
`region_code_for`). -/
def region_of (md : MetadataStore) (n : PhoneNumber) : Option RegionMetadata :=
  resolve_region md n.country_code.toNat (nsn_digits n)

/-- Modelled from the spec: `is_possible_with_reason(n)` of section 4.3. -/
def is_possible_with_reason (md : MetadataStore) (n : PhoneNumber) : ValidationResult :=
  match region_of md n with
  | none => ValidationResult.INVALID_COUNTRY_CODE
  | some r =>
    let len := (nsn_digits n).length
    if r.general_descriptor.lengths.contains len then ValidationResult.IS_POSSIBLE
    else if r.general_descriptor.lengths.all (fun l => len < l) then ValidationResult.TOO_SHORT
    else if r.general_descriptor.lengths.all (fun l => l < len) then ValidationResult.TOO_LONG
    else ValidationResult.INVALID_LENGTH

/-- Modelled from the spec: `is_possible(n)` of section 4.3, the digit count
of the number against the general length constraints of its region. -/
def is_possible (md : MetadataStore) (n : PhoneNumber) : Bool :=
  match region_of md n with
  | none => false
  | some r => r.general_descriptor.lengths.contains (nsn_digits n).length

/-- Modelled from the spec: `is_valid(n)` of section 4.3, which `additionally
requires the national number to match at least one number-type-specific
pattern in full`. -/
def is_valid (md : MetadataStore) (n : PhoneNumber) : Bool :=
  is_possible md n &&
    match region_of md n with
    | none => false
    | some r => r.type_descriptors.any (fun d => d.accepts (nsn_digits n))

/-- Modelled from the spec: `classify(n)` of section 4.3. -/
def classify (md : MetadataStore) (n : PhoneNumber) : NumberType :=
  match region_of md n with
  | none => NumberType.UNKNOWN
  | some r =>
    if r.fixed_line.accepts (nsn_digits n) && r.mobile.accepts (nsn_digits n) then
      NumberType.FIXED_LINE_OR_MOBILE
    else
      match r.classified.find? (fun td => td.2.accepts (nsn_digits n)) with
      | some td => td.1
      | none => NumberType.UNKNOWN

/-- Modelled from the spec: the E164 rendering of section 4.4, `"+" +
country_calling_code + national_number` with the tracked leading zeros in
place and nothing else (43 is the character `+`). -/
def format_e164 (n : PhoneNumber) : Bytes :=
  43 :: digit_bytes (decimal n.country_code.toNat ++ nsn_digits n)

/-- Modelled from the spec: the first format template of the region that
matches the national number (section 4.4). -/
def choose_template (r : RegionMetadata) (ds : Digits) : Option FormatTemplate :=
  r.formats.find? (fun t => t.pattern ds && t.leading_digits.all (fun p => p ds))

/-- Modelled from the spec: the national part of the NATIONAL rendering, with
the fallback to the raw digits when no template matches (section 4.4). -/
def format_national_part (md : MetadataStore) (n : PhoneNumber) : Bytes :=
  match (region_of md n).bind (fun r => choose_template r (nsn_digits n)) with
  | some t => t.national_format (nsn_digits n)
  | none => digit_bytes (nsn_digits n)

/-- Modelled from the spec: the national part of the INTERNATIONAL rendering. -/
def format_international_part (md : MetadataStore) (n : PhoneNumber) : Bytes :=
  match (region_of md n).bind (fun r => choose_template r (nsn_digits n)) with
  | some t =>
    match t.international_format with
    | some f => f (nsn_digits n)
    | none => t.national_format (nsn_digits n)
  | none => digit_bytes (nsn_digits n)

/-- Modelled from the spec: the extension suffix of the NATIONAL and
INTERNATIONAL renderings. -/
def extension_suffix (n : PhoneNumber) : Bytes :=
  match n.extension with
  | some e => ascii " ext. " ++ e
  | none => []

/-- Modelled from the spec: `format(n, style)` of section 4.4. -/
def format (md : MetadataStore) (n : PhoneNumber) : NumberFormat → Bytes
  | NumberFormat.E164 => format_e164 n
  | NumberFormat.RFC3966 =>
    ascii "tel:" ++ format_e164 n ++
      (match n.extension with
       | some e => ascii ";ext=" ++ e
       | none => [])
  | NumberFormat.NATIONAL => format_national_part md n ++ extension_suffix n
  | NumberFormat.INTERNATIONAL =>
    43 :: digit_bytes (decimal n.country_code.toNat) ++
      format_international_part md n ++ extension_suffix n

/-- Modelled from the spec: `region_code_for(number)` of section 6; a number
without a region has the empty region code. -/
def region_code_for (md : MetadataStore) (n : PhoneNumber) : Bytes :=
  match region_of md n with
  | some r => r.region_code
  | none => []

/-- Modelled from the spec: the style an integer stands for, under the
enumerator values `codes`. -/
def style_of_code (codes : EnumCodes) (format : Int) : Option NumberFormat :=
  [NumberFormat.NATIONAL, NumberFormat.INTERNATIONAL, NumberFormat.E164,
    NumberFormat.RFC3966].find? (fun s => codes.number_format s == format)

/-- Modelled from the spec: the engine of sections 4.2 to 4.4 over a metadata
store, as the record of operations the wrapper calls.  A failed parse leaves
the number it was given in its default state; an integer that is the value of
no style is rendered as the raw digits (`Formatting never fails`).  The
comparison of section 4.5 is not modelled: it is the parameter `matcher`. -/
def engine (codes : EnumCodes) (md : MetadataStore)
    (matcher : PhoneNumber → PhoneNumber → MatchLevel) : PhoneNumberUtil where
  Parse := fun text default_region =>
    match parse md text default_region with
    | Except.ok n => (ErrorType.NO_PARSING_ERROR, n)
    | Except.error k =>
      (k, { country_code := 0, national_number := 0, italian_leading_zero := false,
            number_of_leading_zeros := 0, extension := none,
            preferred_domestic_carrier_code := none, raw_input := none })
  IsValidNumber := is_valid md
  IsPossibleNumber := is_possible md
  IsPossibleNumberWithReason := is_possible_with_reason md
  GetNumberType := classify md
  Format := fun n style =>
    match style_of_code codes style with
    | some s => format md n s
    | none => digit_bytes (nsn_digits n)
  GetRegionCodeForNumber := region_code_for md
  IsNumberMatch := matcher

/-- Modelled from the spec: the texts of the metadata table, region codes and
what the format templates render, hold no zero byte. -/
def MetadataStore.text_zero_free (md : MetadataStore) : Prop :=
  ∀ r ∈ md.regions, 0 ∉ r.region_code ∧
    ∀ t ∈ r.formats, (∀ ds, 0 ∉ t.national_format ds) ∧
      ∀ f, t.international_format = some f → ∀ ds, 0 ∉ f ds

/-! ## Sample data

A small metadata store and fixed enumerator values, used to instantiate the
theorems at concrete inputs. -/

/-- A descriptor that matches nothing. -/
def no_numbers : NumberDesc := { pattern := fun _ => false, lengths := [] }

/-- Digit strings whose first digit lies between `lo` and `hi`. -/
def first_digit_in (lo hi : Nat) (ds : Digits) : Bool :=
  match ds with
  | d :: _ => decide (lo ≤ d) && decide (d ≤ hi)
  | [] => false

/-- A sample region with calling code 1: ten-digit numbers that start with a
digit from 2 to 9, national prefix `1`, international dialing prefix `011`. -/
def sample_us : RegionMetadata where
  region_code := ascii "US"
  country_calling_code := 1
  idd := some [0, 1, 1]
  national_prefix := some [1]
  national_prefix_for_parsing := some (fun ds => if ds.head? == some 1 then some 1 else none)
  national_prefix_transform_rule := none
  general_descriptor := { pattern := first_digit_in 2 9, lengths := [10] }
  fixed_line := { pattern := first_digit_in 2 9, lengths := [10] }
  mobile := { pattern := first_digit_in 2 9, lengths := [10] }
  toll_free := no_numbers
  premium_rate := no_numbers
  shared_cost := no_numbers
  voip := no_numbers
  personal_number := no_numbers
  pager := no_numbers
  uan := no_numbers
  voicemail := no_numbers
  short_code := no_numbers
  formats := []
  leading_digits := none
  main_country_for_code := true

/-- A sample region with calling code 39: fixed-line numbers keep a leading
zero, mobile numbers start with 3; no national prefix. -/
def sample_it : RegionMetadata where
  region_code := ascii "IT"
  country_calling_code := 39
  idd := some [0, 0]
  national_prefix := none
  national_prefix_for_parsing := none
  national_prefix_transform_rule := none
  general_descriptor := { pattern := fun _ => true, lengths := [6, 7, 8, 9, 10, 11] }
  fixed_line := { pattern := first_digit_in 0 0, lengths := [6, 7, 8, 9, 10, 11] }
  mobile := { pattern := first_digit_in 3 3, lengths := [9, 10] }
  toll_free := no_numbers
  premium_rate := no_numbers
  shared_cost := no_numbers
  voip := no_numbers
  personal_number := no_numbers
  pager := no_numbers
  uan := no_numbers
  voicemail := no_numbers
  short_code := no_numbers
  formats := []
  leading_digits := none
  main_country_for_code := true

/-- The sample metadata store. -/
def sample_store : MetadataStore where
  regions := [sample_us, sample_it]
  max_input_digits := 250

/-- Sample enumerator values: every enumeration numbered from 0 in the order
its members are listed above. -/
def sample_codes : EnumCodes where
  error_type := fun e => (e.toCtorIdx : Int)
  validation_result := fun e => (e.toCtorIdx : Int)
  number_type := fun e => (e.toCtorIdx : Int)
  match_level := fun e => (e.toCtorIdx : Int)
  number_format := fun e => (e.toCtorIdx : Int)

/-- A sample comparison: identical numbers match exactly, others not at all. -/
def sample_matcher (a b : PhoneNumber) : MatchLevel :=
  if a = b then MatchLevel.EXACT_MATCH else MatchLevel.NO_MATCH

/-- The engine of the spec over the sample store. -/
def sample_util : PhoneNumberUtil := engine sample_codes sample_store sample_matcher

/-- The number `+1 650-253-0000`. -/
def sample_number : PhoneNumber where
  country_code := 1
  national_number := 6502530000
  italian_leading_zero := false
  number_of_leading_zeros := 0
  extension := none
  preferred_domestic_carrier_code := none
  raw_input := none

/-- The number `+1 650-253-0000 ext. 123`. -/
def sample_number_ext : PhoneNumber := { sample_number with extension := some (ascii "123") }

/-- The number `+1` followed by the national number `2 ^ 32 + 1`. -/
def sample_number_wide : PhoneNumber := { sample_number with national_number := 4294967297 }

/-! ## Properties of the wrapper -/

theorem takeWhile_nonzero_append (s t : Bytes) (h : 0 ∉ s) :
    (s ++ 0 :: t).takeWhile (fun b => b != 0) = s := by
  induction s with
  | nil => simp
  | cons b s ih =>
    have hb : b ≠ 0 := fun e => h (by simp [e])
    have hs : 0 ∉ s := fun e => h (by simp [e])
    simp [List.takeWhile_cons, hb, ih hs]

theorem strcpy_c_str (fresh : Nat → Nat) (s : Bytes) (h : 0 ∉ s) :
    strcpy (malloc fresh (s.length + 1)) (c_str s) = s ++ [0] := by
  unfold strcpy c_str malloc
  rw [takeWhile_nonzero_append s [] h]
  simp

theorem to_int_of_range (x : Int) (h1 : -(2 ^ 31) ≤ x) (h2 : x < 2 ^ 31) : to_int x = x := by
  unfold to_int
  omega

theorem to_int_succ_ne (x : Int) : to_int (x + 1) ≠ x := by
  unfold to_int
  omega

/-! ## Properties of the engine of the spec -/

theorem digit_bytes_pos (ds : Digits) : 0 ∉ digit_bytes ds := by
  intro hb
  unfold digit_bytes at hb
  rw [List.mem_map] at hb
  obtain ⟨d, _, hd⟩ := hb
  omega

theorem e164_no_zero (n : PhoneNumber) : 0 ∉ format_e164 n := by
  intro h
  unfold format_e164 at h
  rw [List.mem_cons] at h
  rcases h with h | h
  · omega
  · exact digit_bytes_pos _ h

theorem resolve_region_mem (md : MetadataStore) (cc : Nat) (ds : Digits) (r : RegionMetadata)
    (h : resolve_region md cc ds = some r) : r ∈ md.regions ∧ r.country_calling_code = cc := by
  have hfilter : ∀ x, x ∈ md.regions.filter (fun r => r.country_calling_code == cc) →
      x ∈ md.regions ∧ x.country_calling_code = cc := by
    intro x hx
    simpa using hx
  unfold resolve_region at h
  generalize md.regions.filter (fun r => r.country_calling_code == cc) = cands at h hfilter
  match cands, h, hfilter with
  | [], h, _ => simp at h
  | [x], h, hf =>
    simp at h
    subst h
    exact hf x (by simp)
  | x :: y :: l, h, hf =>
    simp only at h
    split at h
    · rename_i r1 h1
      simp at h
      subst h
      exact hf _ (List.mem_of_find?_eq_some h1)
    · split at h
      · rename_i r1 h1
        simp at h
        subst h
        exact hf _ (List.mem_of_find?_eq_some h1)
      · simp at h
        subst h
        exact hf x (by simp)

/-! ## The strings the engine of the spec renders for a parsed number -/

theorem split_extension_zero_free (raw : Bytes) :
    ∀ e, (split_extension raw).2 = some e → 0 ∉ e := by
  induction raw with
  | nil =>
    intro e h
    simp [split_extension] at h
  | cons b rest ih =>
    intro e h
    unfold split_extension at h
    split at h
    · simp only at h
      split at h
      · simp at h
      · simp only [Option.some.injEq] at h
        subst h
        exact digit_bytes_pos _
    · exact ih e h

theorem build_number_extension (md : MetadataStore) (cc : Nat) (rest : Digits)
    (ext : Option Bytes) (n : PhoneNumber)
    (h : build_number md cc rest ext = Except.ok n) : n.extension = ext := by
  unfold build_number at h
  split at h
  · cases h
  · simp only at h
    split at h
    · cases h
    · split at h
      · cases h
      · simp only [Except.ok.injEq] at h
        subst h
        rfl

theorem parse_extension (md : MetadataStore) (raw default_region : Bytes) (n : PhoneNumber)
    (h : parse md raw default_region = Except.ok n) :
    n.extension = (split_extension raw).2 := by
  unfold parse at h
  simp only at h
  repeat' split at h
  all_goals first
    | exact build_number_extension _ _ _ _ _ h
    | cases h

theorem parsed_extension_zero_free (md : MetadataStore) (raw default_region : Bytes)
    (n : PhoneNumber) (h : parse md raw default_region = Except.ok n) :
    ∀ e, n.extension = some e → 0 ∉ e := by
  intro e he
  rw [parse_extension md raw default_region n h] at he
  exact split_extension_zero_free raw e he

theorem chosen_template_mem (md : MetadataStore) (n : PhoneNumber) (t : FormatTemplate)
    (h : (region_of md n).bind (fun r => choose_template r (nsn_digits n)) = some t) :
    ∃ r ∈ md.regions, t ∈ r.formats := by
  rw [Option.bind_eq_some] at h
  obtain ⟨r, hr, ht⟩ := h
  unfold region_of at hr
  unfold choose_template at ht
  exact ⟨r, (resolve_region_mem md _ _ r hr).1, List.mem_of_find?_eq_some ht⟩

theorem extension_suffix_zero_free (n : PhoneNumber)
    (hext : ∀ e, n.extension = some e → 0 ∉ e) : 0 ∉ extension_suffix n := by
  unfold extension_suffix
  cases he : n.extension with
  | none => simp
  | some e =>
    have h0 : 0 ∉ ascii " ext. " := by decide
    simp only [List.mem_append, not_or]
    exact ⟨h0, hext e he⟩

theorem national_part_zero_free (md : MetadataStore) (n : PhoneNumber)
    (hmd : md.text_zero_free) : 0 ∉ format_national_part md n := by
  unfold format_national_part
  split
  · rename_i t ht
    obtain ⟨r, hr, htr⟩ := chosen_template_mem md n t ht
    exact ((hmd r hr).2 t htr).1 _
  · exact digit_bytes_pos _

theorem international_part_zero_free (md : MetadataStore) (n : PhoneNumber)
    (hmd : md.text_zero_free) : 0 ∉ format_international_part md n := by
  unfold format_international_part
  split
  · rename_i t ht
    obtain ⟨r, hr, htr⟩ := chosen_template_mem md n t ht
    split
    · rename_i f hf
      exact ((hmd r hr).2 t htr).2 f hf _
    · exact ((hmd r hr).2 t htr).1 _
  · exact digit_bytes_pos _

theorem format_zero_free (md : MetadataStore) (n : PhoneNumber) (style : NumberFormat)
    (hmd : md.text_zero_free) (hext : ∀ e, n.extension = some e → 0 ∉ e) :
    0 ∉ format md n style := by
  cases style with
  | E164 => exact e164_no_zero n
  | RFC3966 =>
    have h0 : 0 ∉ ascii "tel:" := by decide
    have h1 : 0 ∉ ascii ";ext=" := by decide
    unfold format
    cases he : n.extension with
    | none =>
      simp only [List.append_nil, List.mem_append, not_or]
      exact ⟨h0, e164_no_zero n⟩
    | some e =>
      simp only [List.mem_append, not_or]
      exact ⟨⟨h0, e164_no_zero n⟩, h1, hext e he⟩
  | NATIONAL =>
    unfold format
    simp only [List.mem_append, not_or]
    exact ⟨national_part_zero_free md n hmd, extension_suffix_zero_free n hext⟩
  | INTERNATIONAL =>
    unfold format
    simp only [List.cons_append, List.mem_cons, List.mem_append, not_or]
    exact ⟨by omega, ⟨digit_bytes_pos _, international_part_zero_free md n hmd⟩,
      extension_suffix_zero_free n hext⟩

theorem region_code_zero_free (md : MetadataStore) (n : PhoneNumber)
    (hmd : md.text_zero_free) : 0 ∉ region_code_for md n := by
  unfold region_code_for
  split
  · rename_i r hr
    unfold region_of at hr
    exact (hmd r (resolve_region_mem md _ _ r hr).1).1
  · simp

/-- Every number that `phoneutil_parse` hands out over the engine of the spec
is rendered, in every style, without a zero byte, and so is its region code. -/
theorem parsed_number_strings_zero_free (codes : EnumCodes) (md : MetadataStore)
    (matcher : PhoneNumber → PhoneNumber → MatchLevel) (error : Int)
    (number_to_parse default_region : Bytes) (n : PhoneNumber) (format : Int)
    (hmd : md.text_zero_free)
    (h : (phoneutil_parse (engine codes md matcher) error number_to_parse
      default_region).phone_number_out = some n) :
    0 ∉ (engine codes md matcher).Format n format ∧
    0 ∉ (engine codes md matcher).GetRegionCodeForNumber n := by
  have hext : ∀ e, n.extension = some e → 0 ∉ e := by
    unfold phoneutil_parse engine at h
    simp only at h
    cases hp : parse md (std_string number_to_parse) (std_string default_region) with
    | error k =>
      rw [hp] at h
      simp only at h
      split at h
      · simp only [Option.some.injEq] at h
        subst h
        intro e he
        cases he
      · cases h
    | ok m =>
      rw [hp] at h
      simp only [beq_self_eq_true, if_true, Option.some.injEq] at h
      subst h
      exact parsed_extension_zero_free md _ _ m hp
  refine ⟨?_, region_code_zero_free md n hmd⟩
  show 0 ∉ (match style_of_code codes format with
    | some s => PhoneCheck.format md n s
    | none => digit_bytes (nsn_digits n))
  split
  · exact format_zero_free md n _ hmd hext
  · exact digit_bytes_pos _

theorem sample_store_text_zero_free : sample_store.text_zero_free := by
  intro r hr
  simp only [sample_store, List.mem_cons, List.mem_singleton, List.not_mem_nil, or_false] at hr
  rcases hr with h | h <;> subst h
  · exact ⟨by decide, fun t ht => by simp [sample_us] at ht⟩
  · exact ⟨by decide, fun t ht => by simp [sample_it] at ht⟩

/-! ## The examples of section 8 on the engine of the spec -/

/-- Section 8, extension handling: `"+1 650-253-0000 ext. 123"` parses to the
national number 6502530000 with extension `"123"`. -/
theorem parse_extension_example :
    parse sample_store (ascii "+1 650-253-0000 ext. 123") [] = Except.ok sample_number_ext := by
  rfl

/-- Section 8, leading zero: `"+39 06 6982"` with region IT parses to a number
with `italian_leading_zero` set and the zero kept out of the national number. -/
theorem parse_leading_zero_example :
    parse sample_store (ascii "+39 06 6982") (ascii "IT") = Except.ok
      { country_code := 39, national_number := 66982, italian_leading_zero := true,
        number_of_leading_zeros := 1, extension := none,
        preferred_domestic_carrier_code := none, raw_input := none } := by
  rfl

/-- Section 8, disambiguation: `"2125551234"` with default region US parses to
a number with country calling code 1. -/
theorem parse_national_example :
    parse sample_store (ascii "2125551234") (ascii "US") = Except.ok
      { country_code := 1, national_number := 2125551234, italian_leading_zero := false,
        number_of_leading_zeros := 0, extension := none,
        preferred_domestic_carrier_code := none, raw_input := none } := by
  rfl

/-- Section 8, invalid country code: `"+999 1234567"` fails with
INVALID_COUNTRY_CODE. -/
theorem parse_invalid_country_code_example :
    parse sample_store (ascii "+999 1234567") []
      = Except.error ErrorType.INVALID_COUNTRY_CODE := by
  rfl

/-! ## What `phoneutil_parse` guarantees whatever the unassigned local holds -/

theorem phoneutil_parse_number_iff_ret (util : PhoneNumberUtil) (error : Int)
    (number_to_parse default_region : Bytes) :
    ((phoneutil_parse util error number_to_parse default_region).ret = true ↔
      (phoneutil_parse util error number_to_parse default_region).phone_number_out ≠ none) ∧
    ((phoneutil_parse util error number_to_parse default_region).ret = true →
      (phoneutil_parse util error number_to_parse default_region).error_type_out = 0) := by
  by_cases h : (util.Parse (std_string number_to_parse) (std_string default_region)).1
      = ErrorType.NO_PARSING_ERROR
  · simp [phoneutil_parse, h]
  · simp [phoneutil_parse, h]

theorem phoneutil_parse_ret_number_fixed (util : PhoneNumberUtil) (error1 error2 : Int)
    (number_to_parse default_region : Bytes) :
    (phoneutil_parse util error1 number_to_parse default_region).ret
      = (phoneutil_parse util error2 number_to_parse default_region).ret ∧
    (phoneutil_parse util error1 number_to_parse default_region).phone_number_out
      = (phoneutil_parse util error2 number_to_parse default_region).phone_number_out := by
  by_cases h : (util.Parse (std_string number_to_parse) (std_string default_region)).1
      = ErrorType.NO_PARSING_ERROR
  · simp [phoneutil_parse, h]
  · simp [phoneutil_parse, h]

/-! ## The claims -/

/-- C1 (fails on the code): when the engine's parse fails, whatever the kind of the
failure, `phoneutil_parse` returns false and stores in `error_type_out` the
value of the local `error`, which is never assigned; there are values of it
for which the stored integer is not the code of the engine's error kind. -/
theorem phoneutil_parse_failure_stores_unassigned_error (codes : EnumCodes)
    (util : PhoneNumberUtil) (number_to_parse default_region : Bytes)
    (h : (util.Parse (std_string number_to_parse) (std_string default_region)).1
      ≠ ErrorType.NO_PARSING_ERROR) :
    (∀ error : Int,
      (phoneutil_parse util error number_to_parse default_region).ret = false ∧
      (phoneutil_parse util error number_to_parse default_region).error_type_out
        = to_int error) ∧
    ∃ error : Int,
      (phoneutil_parse util error number_to_parse default_region).error_type_out
        ≠ codes.error_type
            (util.Parse (std_string number_to_parse) (std_string default_region)).1 := by
  have hb : ((util.Parse (std_string number_to_parse) (std_string default_region)).1
      == ErrorType.NO_PARSING_ERROR) = false := by simpa using h
  refine ⟨fun error => ?_, ?_⟩
  · simp [phoneutil_parse, hb]
  · refine ⟨codes.error_type
      (util.Parse (std_string number_to_parse) (std_string default_region)).1 + 1, ?_⟩
    simp only [phoneutil_parse, hb]
    exact to_int_succ_ne _

/-- C1 at `"+999 1234567"`: the engine reports INVALID_COUNTRY_CODE, and the
wrapper stores the unassigned value of `error` (here 0), not that kind's code. -/
theorem phoneutil_parse_failure_stores_unassigned_error_witness :
    (sample_util.Parse (std_string (c_str (ascii "+999 1234567"))) (std_string (c_str []))).1
      = ErrorType.INVALID_COUNTRY_CODE ∧
    (phoneutil_parse sample_util 0 (c_str (ascii "+999 1234567")) (c_str [])).error_type_out = 0 ∧
    ∃ error : Int,
      (phoneutil_parse sample_util error (c_str (ascii "+999 1234567")) (c_str [])).error_type_out
        ≠ sample_codes.error_type
            (sample_util.Parse (std_string (c_str (ascii "+999 1234567")))
              (std_string (c_str []))).1 :=
  ⟨by decide, by decide,
    (phoneutil_parse_failure_stores_unassigned_error sample_codes sample_util
      (c_str (ascii "+999 1234567")) (c_str []) (by decide)).2⟩

/-- C2: `phoneutil_parse` returns true exactly when the engine's parse returns
NO_PARSING_ERROR, and then `phone_number_out` holds the number the engine
produced and `error_type_out` is 0. -/
theorem phoneutil_parse_success (util : PhoneNumberUtil) (error : Int)
    (number_to_parse default_region : Bytes) :
    ((phoneutil_parse util error number_to_parse default_region).ret = true ↔
      (util.Parse (std_string number_to_parse) (std_string default_region)).1
        = ErrorType.NO_PARSING_ERROR) ∧
    ((util.Parse (std_string number_to_parse) (std_string default_region)).1
        = ErrorType.NO_PARSING_ERROR →
      (phoneutil_parse util error number_to_parse default_region).phone_number_out
        = some (util.Parse (std_string number_to_parse) (std_string default_region)).2 ∧
      (phoneutil_parse util error number_to_parse default_region).error_type_out = 0) := by
  by_cases h : (util.Parse (std_string number_to_parse) (std_string default_region)).1
      = ErrorType.NO_PARSING_ERROR
  · simp [phoneutil_parse, h]
  · have hb : ((util.Parse (std_string number_to_parse) (std_string default_region)).1
        == ErrorType.NO_PARSING_ERROR) = false := by simpa using h
    simp [phoneutil_parse, hb, h]

/-- C2 at `"+1 650-253-0000"`: the parse succeeds and the wrapper hands out the
engine's number with error code 0. -/
theorem phoneutil_parse_success_witness :
    (phoneutil_parse sample_util 7 (c_str (ascii "+1 650-253-0000")) (c_str [])).ret = true ∧
    (phoneutil_parse sample_util 7 (c_str (ascii "+1 650-253-0000")) (c_str [])).phone_number_out
      = some sample_number ∧
    (phoneutil_parse sample_util 7 (c_str (ascii "+1 650-253-0000")) (c_str [])).error_type_out
      = 0 :=
  have h := phoneutil_parse_success sample_util 7 (c_str (ascii "+1 650-253-0000")) (c_str [])
  ⟨h.1.2 (by decide), (h.2 (by decide)).1.trans (by decide), (h.2 (by decide)).2⟩

/-- C3: over the engine of the spec, a number that `phoneutil_is_valid_number`
accepts is accepted by `phoneutil_is_possible_number`. -/
theorem valid_number_is_possible (codes : EnumCodes) (md : MetadataStore)
    (matcher : PhoneNumber → PhoneNumber → MatchLevel) (n : PhoneNumber)
    (h : (phoneutil_is_valid_number (engine codes md matcher) n).result = true) :
    (phoneutil_is_possible_number (engine codes md matcher) n).result = true := by
  have hv : is_valid md n = true := h
  unfold is_valid at hv
  rw [Bool.and_eq_true] at hv
  exact hv.1

/-- C3 at `+1 650-253-0000`, which the sample store holds valid. -/
theorem valid_number_is_possible_witness :
    (phoneutil_is_valid_number sample_util sample_number).result = true ∧
    (phoneutil_is_possible_number sample_util sample_number).result = true :=
  ⟨by decide, valid_number_is_possible sample_codes sample_store sample_matcher sample_number
    (by decide)⟩

/-- C5: `phoneutil_format_number` and `phoneutil_get_region_code` report the
length of the engine's string, and when that string holds no zero byte (as
the strings rendered for a number that `phoneutil_parse` handed out do, see
`parsed_number_strings_zero_free`) the first `length` bytes of the block
they fill are the bytes of the string and the byte at `length` is the
terminating zero.  Each wrapper depends on its own string only. -/
theorem string_wrappers_return_engine_string (util : PhoneNumberUtil) (fresh : Nat → Nat)
    (number : PhoneNumber) (format : Int) :
    ((phoneutil_format_number util fresh number format).result.len
        = (util.Format number format).length ∧
      (0 ∉ util.Format number format →
        (phoneutil_format_number util fresh number format).result.buffer.take
            (phoneutil_format_number util fresh number format).result.len
          = util.Format number format ∧
        (phoneutil_format_number util fresh number format).result.buffer.get?
            (phoneutil_format_number util fresh number format).result.len = some 0)) ∧
    ((phoneutil_get_region_code util fresh number).result.len
        = (util.GetRegionCodeForNumber number).length ∧
      (0 ∉ util.GetRegionCodeForNumber number →
        (phoneutil_get_region_code util fresh number).result.buffer.take
            (phoneutil_get_region_code util fresh number).result.len
          = util.GetRegionCodeForNumber number ∧
        (phoneutil_get_region_code util fresh number).result.buffer.get?
            (phoneutil_get_region_code util fresh number).result.len = some 0)) := by
  refine ⟨⟨rfl, fun hf => ?_⟩, ⟨rfl, fun hr => ?_⟩⟩
  · simp only [phoneutil_format_number, strcpy_c_str fresh _ hf]
    simp
  · simp only [phoneutil_get_region_code, strcpy_c_str fresh _ hr]
    simp

/-- C5 at the number that `phoneutil_parse` hands out for
`"+1 650-253-0000 ext. 123"`: its RFC3966 rendering and its region code hold
no zero byte and come back unchanged. -/
theorem string_wrappers_return_engine_string_witness :
    (phoneutil_parse sample_util 0 (c_str (ascii "+1 650-253-0000 ext. 123"))
        (c_str [])).phone_number_out = some sample_number_ext ∧
    (phoneutil_format_number sample_util (fun _ => 255) sample_number_ext
        (sample_codes.number_format NumberFormat.RFC3966)).result
      = { buffer := ascii "tel:+16502530000;ext=123" ++ [0], len := 24 } ∧
    (phoneutil_get_region_code sample_util (fun _ => 255) sample_number_ext).result
      = { buffer := ascii "US" ++ [0], len := 2 } ∧
    ((phoneutil_format_number sample_util (fun _ => 255) sample_number_ext
          (sample_codes.number_format NumberFormat.RFC3966)).result.buffer.take
            (phoneutil_format_number sample_util (fun _ => 255) sample_number_ext
              (sample_codes.number_format NumberFormat.RFC3966)).result.len
        = sample_util.Format sample_number_ext
            (sample_codes.number_format NumberFormat.RFC3966) ∧
      (phoneutil_format_number sample_util (fun _ => 255) sample_number_ext
          (sample_codes.number_format NumberFormat.RFC3966)).result.buffer.get?
            (phoneutil_format_number sample_util (fun _ => 255) sample_number_ext
              (sample_codes.number_format NumberFormat.RFC3966)).result.len = some 0) ∧
    ((phoneutil_get_region_code sample_util (fun _ => 255) sample_number_ext).result.buffer.take
          (phoneutil_get_region_code sample_util (fun _ => 255) sample_number_ext).result.len
        = sample_util.GetRegionCodeForNumber sample_number_ext ∧
      (phoneutil_get_region_code sample_util (fun _ => 255) sample_number_ext).result.buffer.get?
          (phoneutil_get_region_code sample_util (fun _ => 255) sample_number_ext).result.len
        = some 0) :=
  ⟨by decide, by decide, by decide,
    (string_wrappers_return_engine_string sample_util (fun _ => 255) sample_number_ext
      (sample_codes.number_format NumberFormat.RFC3966)).1.2
      (parsed_number_strings_zero_free sample_codes sample_store sample_matcher 0
        (c_str (ascii "+1 650-253-0000 ext. 123")) (c_str []) sample_number_ext
        (sample_codes.number_format NumberFormat.RFC3966) sample_store_text_zero_free
        (by decide)).1,
    (string_wrappers_return_engine_string sample_util (fun _ => 255) sample_number_ext
      (sample_codes.number_format NumberFormat.RFC3966)).2.2
      (parsed_number_strings_zero_free sample_codes sample_store sample_matcher 0
        (c_str (ascii "+1 650-253-0000 ext. 123")) (c_str []) sample_number_ext
        (sample_codes.number_format NumberFormat.RFC3966) sample_store_text_zero_free
        (by decide)).2⟩

/-- C6: for every number a `PhoneNumber` object can hold,
`phoneutil_get_country_code` returns the country calling code and
`phoneutil_get_national_number` the national number, the whole unsigned
64-bit value. -/
theorem accessors_return_fields (n : PhoneNumber) (h : n.InRange) :
    (phoneutil_get_country_code n).result = n.country_code ∧
    (phoneutil_get_national_number n).result = n.national_number := by
  obtain ⟨h1, h2, h3⟩ := h
  exact ⟨to_int_of_range _ h1 h2, Nat.mod_eq_of_lt h3⟩

/-- C6 at a national number above `2 ^ 32`. -/
theorem accessors_return_fields_witness :
    sample_number_wide.InRange ∧
    (phoneutil_get_country_code sample_number_wide).result = 1 ∧
    (phoneutil_get_national_number sample_number_wide).result = 2 ^ 32 + 1 :=
  ⟨by decide, accessors_return_fields sample_number_wide (by decide)⟩

/-- C7: each of the nine wrappers that consume a number leaves the number,
or both numbers, it is given as they were. -/
theorem wrappers_leave_number_unchanged (codes : EnumCodes) (util : PhoneNumberUtil)
    (fresh : Nat → Nat) (format : Int) (n m : PhoneNumber) :
    (phoneutil_is_valid_number util n).number = n ∧
    (phoneutil_is_possible_number util n).number = n ∧
    (phoneutil_is_possible_number_with_reason codes util n).number = n ∧
    (phoneutil_get_number_type codes util n).number = n ∧
    (phoneutil_format_number util fresh n format).number = n ∧
    (phoneutil_get_region_code util fresh n).number = n ∧
    ((phoneutil_is_number_match codes util n m).number1 = n ∧
      (phoneutil_is_number_match codes util n m).number2 = m) ∧
    (phoneutil_get_country_code n).number = n ∧
    (phoneutil_get_national_number n).number = n :=
  ⟨rfl, rfl, rfl, rfl, rfl, rfl, ⟨rfl, rfl⟩, rfl, rfl⟩

/-- C8 (fails on the code): two calls of `phoneutil_parse` with the same
arguments, `"+999 1234567"` and no default region, agree on the return value
and on `phone_number_out` and differ in `error_type_out`, which is the
unassigned value of the local `error` in each call. -/
theorem phoneutil_parse_error_type_out_varies :
    (phoneutil_parse sample_util 0 (c_str (ascii "+999 1234567")) (c_str [])).ret
      = (phoneutil_parse sample_util 5 (c_str (ascii "+999 1234567")) (c_str [])).ret ∧
    (phoneutil_parse sample_util 0 (c_str (ascii "+999 1234567")) (c_str [])).phone_number_out
      = (phoneutil_parse sample_util 5 (c_str (ascii "+999 1234567"))
          (c_str [])).phone_number_out ∧
    (phoneutil_parse sample_util 0 (c_str (ascii "+999 1234567")) (c_str [])).error_type_out
      ≠ (phoneutil_parse sample_util 5 (c_str (ascii "+999 1234567"))
          (c_str [])).error_type_out := by
  decide

/-- C9 (fails on the code): on `"+999 1234567"` with the unassigned local
`error` holding 0, `phoneutil_parse` returns false with a null
`phone_number_out` and yet stores 0, the code of success, in
`error_type_out`. -/
theorem phoneutil_parse_failure_with_success_code :
    phoneutil_parse sample_util 0 (c_str (ascii "+999 1234567")) (c_str [])
      = { ret := false, phone_number_out := none, error_type_out := 0 } := by
  decide

/-- C10: the three wrappers return the integer value of the enumeration
member the engine computed, hence the value of some member of the
enumeration; they are total functions with no error outcome. -/
theorem enum_wrappers_return_member_code (codes : EnumCodes) (util : PhoneNumberUtil)
    (n m : PhoneNumber) :
    ((phoneutil_is_possible_number_with_reason codes util n).result
        = codes.validation_result (util.IsPossibleNumberWithReason n) ∧
      ∃ v : ValidationResult,
        (phoneutil_is_possible_number_with_reason codes util n).result
          = codes.validation_result v) ∧
    ((phoneutil_get_number_type codes util n).result
        = codes.number_type (util.GetNumberType n) ∧
      ∃ t : NumberType, (phoneutil_get_number_type codes util n).result = codes.number_type t) ∧
    ((phoneutil_is_number_match codes util n m).result
        = codes.match_level (util.IsNumberMatch n m) ∧
      ∃ l : MatchLevel,
        (phoneutil_is_number_match codes util n m).result = codes.match_level l) :=
  ⟨⟨rfl, _, rfl⟩, ⟨rfl, _, rfl⟩, ⟨rfl, _, rfl⟩⟩


end PhoneCheck
